import Mathlib

/-!
Verification of the Messenger webhook handler
(`src/Script/commands/edit.js`, header name `messengerWebhook.js`).

The JavaScript module is shallowly embedded below.  JavaScript truthiness
on the string-valued fields that the code tests with `if (x)` / `!x` is
modelled by `truthyStr`: a field is truthy exactly when it is present and
not the empty string.  The `undefined`/`null` values that make a property
access throw are modelled explicitly (`EntryVal.nul`, `EntryField.missing`);
a thrown error inside `messageHandler`'s `try` block is modelled by the
`crashed` flag of `processEntries`, which the handler turns into a 500
status.  Replies are collected into a list: each element corresponds to
one `safeSend` invocation the code would perform.
-/

namespace MessengerWebhook

/-- JavaScript truthiness of an optional string: `undefined`, `null` and
`""` are falsy, every other string is truthy. -/
def truthyStr : Option String → Bool
  | none => false
  | some s => s != ""

/-- Embedding of a `message` payload: `text`, `is_echo`, `attachments`.
`text = none` covers an absent `text`; `some ""` is present but falsy.
`attachments` is absent or an array (elements abstracted to strings). -/
structure Message where
  text : Option String
  is_echo : Bool
  attachments : Option (List String)
  deriving DecidableEq, Repr

/-- Embedding of one event object of an entry's `messaging` array:
`sender` is `event.sender?.id`; `postback = some p` means a `postback`
object is present with optional `payload` field `p`. -/
structure Event where
  sender : Option String
  message : Option Message
  postback : Option (Option String)
  deriving DecidableEq, Repr

/-- One intended reply: the pair of arguments of a `safeSend` call. -/
structure OutboundReply where
  recipientId : String
  text : String
  deriving DecidableEq, Repr

/-- One element of an entry's `messaging` array: `nul` is a JavaScript
`null`/`undefined` element, whose `event.message` access throws; `ev`
is an event object. -/
inductive EventVal where
  | nul : EventVal
  | ev : Event → EventVal
  deriving DecidableEq, Repr

/-- The `messaging` property of an entry: `falsy` when it is absent or
falsy (then `entry.messaging || []` yields the empty array; this also
covers non-object entries, whose property read gives `undefined`);
`notIterable` when it is truthy but not iterable, so that
`for (const event of changes)` throws; `array` when it is an array. -/
inductive MessagingField where
  | falsy : MessagingField
  | notIterable : MessagingField
  | array : List EventVal → MessagingField
  deriving DecidableEq, Repr

/-- One value of the `entry` array (or the single coerced value):
`nul` is a JavaScript `null`/`undefined` (whose `.messaging` access
throws); `obj` is any other value, carrying its `messaging` property. -/
inductive EntryVal where
  | nul : EntryVal
  | obj : MessagingField → EntryVal
  deriving DecidableEq, Repr

/-- The `entry` field of the POST body: absent (`undefined`), a single
non-array value, or an array. -/
inductive EntryField where
  | missing : EntryField
  | single : EntryVal → EntryField
  | list : List EntryVal → EntryField
  deriving DecidableEq, Repr

/-- The POST body: top-level `object` discriminator and `entry` field. -/
structure Body where
  object : Option String
  entry : EntryField
  deriving DecidableEq, Repr

/-- The character set stripped by JavaScript `String.prototype.trim`:
the ECMAScript WhiteSpace productions (TAB, VT, FF, ZWNBSP and the
Unicode space separators SP, NBSP, U+1680, U+2000..U+200A, U+202F,
U+205F, U+3000) together with the LineTerminator productions (LF, CR,
LS U+2028, PS U+2029). -/
def jsWhitespaceChar (c : Char) : Bool :=
  c.val == 0x09 || c.val == 0x0A || c.val == 0x0B || c.val == 0x0C || c.val == 0x0D
    || c.val == 0x20 || c.val == 0xA0 || c.val == 0x1680
    || (0x2000 ≤ c.val && c.val ≤ 0x200A)
    || c.val == 0x2028 || c.val == 0x2029 || c.val == 0x202F || c.val == 0x205F
    || c.val == 0x3000 || c.val == 0xFEFF

/-- Embedding of JavaScript `String.prototype.trim`: drop the
ECMAScript whitespace and line-terminator characters from both ends of
the character sequence. -/
def jsTrim (s : String) : String :=
  ⟨((s.data.dropWhile jsWhitespaceChar).reverse.dropWhile jsWhitespaceChar).reverse⟩

/-- ASCII lowercasing of a string, used to embed the case-insensitive
(`/i`) regex matches of the source. -/
def lowerStr (s : String) : String := ⟨s.data.map Char.toLower⟩

/-- `const VERIFY_TOKEN = process.env.VERIFY_TOKEN || 'replace_with_verify_token'`. -/
def configVerifyToken : Option String → String
  | none => "replace_with_verify_token"
  | some s => if s = "" then "replace_with_verify_token" else s

/-- Greeting reply string of the source. -/
def greetingText : String := "হাই! আমি ফিরে এসেছি — কীভাবে সাহায্য করব?"

/-- Help reply string of the source. -/
def helpText : String := "আপনি \"status\" লিখলে আমি স্ট্যাটাস দিবো বা সরাসরি প্রশ্ন করতে পারেন।"

/-- Status reply string of the source. -/
def statusText : String := "সার্ভার চলছে ✅ — সব ঠিক আছে।"

/-- Echo reply template of the source: the interpolation of the trimmed
text into the template string. -/
def echoText (text : String) : String := "আপনি বললেন: \"" ++ text ++ "\""

/-- Fixed reply string for messages with attachments. -/
def attachmentReplyText : String :=
  "ধন্যবাদ ছবি/ফাইল পাঠানোর জন্য — বর্তমানে আমি শুধু টেক্সট হ্যান্ডেল করছি।"

/-- Embedding of the regex `/^(hi|hello|hey)$/i` applied to a string:
a case-insensitive exact match against one of the three keywords. -/
def isGreeting (t : String) : Bool :=
  lowerStr t == "hi" || lowerStr t == "hello" || lowerStr t == "hey"

/-- Embedding of `/^help$/i`. -/
def isHelp (t : String) : Bool := lowerStr t == "help"

/-- Embedding of `/^status$/i`. -/
def isStatusCmd (t : String) : Bool := lowerStr t == "status"

/-- `handleIncomingMessage(event)` reduced to the reply it would pass to
`safeSend` (`none` when it returns without sending).  The guard
`if (!senderId || message?.is_echo) return` is the first test; then
`if (message.text)` selects the text branch, which trims the text,
tries the three command regexes in order and falls back to the echo
reply; otherwise `if (message.attachments && message.attachments.length)`
selects the fixed attachment reply. -/
def handleIncomingMessage (event : Event) : Option OutboundReply :=
  match event.sender, event.message with
  | some senderId, some message =>
    if senderId = "" ∨ message.is_echo then none
    else if truthyStr message.text then
      let text := jsTrim (message.text.getD "")
      if isGreeting text then some ⟨senderId, greetingText⟩
      else if isHelp text then some ⟨senderId, helpText⟩
      else if isStatusCmd text then some ⟨senderId, statusText⟩
      else some ⟨senderId, echoText text⟩
    else
      match message.attachments with
      | some atts => if atts.length ≠ 0 then some ⟨senderId, attachmentReplyText⟩ else none
      | none => none
  | _, _ => none

/-- `handlePostback(event)` reduced to the reply it would pass to
`safeSend`: requires a truthy sender id and embeds the payload, or the
placeholder when the payload is absent or falsy. -/
def handlePostback (event : Event) : Option OutboundReply :=
  match event.sender with
  | none => none
  | some senderId =>
    if senderId = "" then none
    else
      let payload := event.postback.bind id
      some ⟨senderId,
        "Postback received: " ++ (if truthyStr payload then payload.getD "" else "<empty>")⟩

/-- Per-event dispatch of `messageHandler`'s inner loop:
`if (event.message) ... else if (event.postback) ... else` log only. -/
def handleEvent (event : Event) : Option OutboundReply :=
  if event.message.isSome then handleIncomingMessage event
  else if event.postback.isSome then handlePostback event
  else none

/-- Line 100 of the source:
`Array.isArray(req.body.entry) ? req.body.entry : [req.body.entry]`.
A missing `entry` is wrapped into the one-element array `[undefined]`. -/
def normalizeEntry : EntryField → List EntryVal
  | .missing => [.nul]
  | .single v => [v]
  | .list vs => vs

/-- The event loop over one entry's `messaging` array: the replies sent
(in order) and whether a `null`/`undefined` element made the
`event.message` access throw (later events are then skipped). -/
def processEvents : List EventVal → List OutboundReply × Bool
  | [] => ([], false)
  | .nul :: _ => ([], true)
  | .ev e :: rest =>
    ((handleEvent e).toList ++ (processEvents rest).1, (processEvents rest).2)

/-- One iteration of the entry loop: `entry.messaging || []` followed by
the event loop.  A `null`/`undefined` entry makes the `.messaging`
access throw, and a truthy non-iterable `messaging` makes the
`for...of` throw; both are modelled by the `true` flag. -/
def processEntry : EntryVal → List OutboundReply × Bool
  | .nul => ([], true)
  | .obj .falsy => ([], false)
  | .obj .notIterable => ([], true)
  | .obj (.array evs) => processEvents evs

/-- The whole entry loop: the replies sent (in order) and whether some
entry threw before the loop finished (later entries are then skipped,
and the `catch` block takes over). -/
def processEntries : List EntryVal → List OutboundReply × Bool
  | [] => ([], false)
  | e :: rest =>
    if (processEntry e).2 then ((processEntry e).1, true)
    else ((processEntry e).1 ++ (processEntries rest).1, (processEntries rest).2)

/-- `messageHandler(req, res)` reduced to the HTTP status it sends and
the list of replies it passes to `safeSend` along the way.  A falsy
body or `object !== 'page'` is rejected with 400; a throw inside the
loops is caught and answered with 500; otherwise 200. -/
def messageHandler (body : Option Body) : Nat × List OutboundReply :=
  match body with
  | none => (400, [])
  | some b =>
    if b.object = some "page" then
      ((if (processEntries (normalizeEntry b.entry)).2 then 500 else 200),
        (processEntries (normalizeEntry b.entry)).1)
    else (400, [])

/-- Response of the GET verification handler: status and optional body
(`none` for the empty `sendStatus` bodies). -/
structure VerifyResponse where
  status : Nat
  body : Option String
  deriving DecidableEq, Repr

/-- `verifyHandler(req, res)`: `hub.mode`, `hub.verify_token` and
`hub.challenge` are the three query parameters; `verifyToken` is the
configured `VERIFY_TOKEN`.  `if (mode && token)` is the truthiness
test; inside it the strict equality test selects 200-with-challenge
or 403; otherwise 400. -/
def verifyHandler (verifyToken : String) (mode token challenge : Option String) :
    VerifyResponse :=
  if truthyStr mode && truthyStr token then
    if mode = some "subscribe" ∧ token = some verifyToken then ⟨200, challenge⟩
    else ⟨403, none⟩
  else ⟨400, none⟩

/-- Outcome of the `fetch` call inside `sendTextMessage`: either a
response (with `res.ok`, `res.status` and the decoded JSON body,
abstracted to a string) or a thrown transport fault. -/
inductive FetchResult where
  | response : Bool → Nat → String → FetchResult
  | fault : String → FetchResult
  deriving DecidableEq, Repr

/-- How an async send call finishes: resolve (with an optional returned
body) or throw. -/
inductive SendOutcome where
  | resolved : Option String → SendOutcome
  | thrown : String → SendOutcome
  deriving DecidableEq, Repr

/-- `sendTextMessage(recipientId, text)` as a function of the configured
`PAGE_ACCESS_TOKEN` and the fetch outcome, returning how the promise
finishes together with the log lines it emits.  Without a truthy token
it warns and resolves; on a non-ok response it logs the status and body
and still resolves with the data; on a transport fault it logs the
error and rethrows. -/
def sendTextMessage (pageAccessToken : Option String) (f : FetchResult) :
    SendOutcome × List String :=
  if !truthyStr pageAccessToken then
    (.resolved none, ["PAGE_ACCESS_TOKEN not set — cannot send messages."])
  else
    match f with
    | .response ok status data =>
      if ok then (.resolved (some data), [])
      else (.resolved (some data), ["Failed to send message: " ++ toString status ++ " " ++ data])
    | .fault err => (.thrown err, ["Error sending message: " ++ err])

/-- `safeSend(recipientId, text)` as a function of the configured token
and the fetch outcome: without a token it logs the intended message and
resolves; otherwise it awaits `sendTextMessage` and catches anything it
throws, logging `safeSend failed` and resolving. -/
def safeSend (pageAccessToken : Option String) (recipientId text : String)
    (f : FetchResult) : SendOutcome × List String :=
  if !truthyStr pageAccessToken then
    (.resolved none, ["Would send to " ++ recipientId ++ ": " ++ text])
  else
    match sendTextMessage pageAccessToken f with
    | (.resolved d, logs) => (.resolved d, logs)
    | (.thrown err, logs) => (.resolved none, logs ++ ["safeSend failed: " ++ err])

/-- Messaging fields the event loop iterates without throwing: absent or
falsy (coerced to `[]`), or an array with no `null`/`undefined`
element. -/
def messagingOk : MessagingField → Prop
  | .falsy => True
  | .notIterable => False
  | .array evs => ∀ v ∈ evs, v ≠ EventVal.nul

/-- Entry values whose processing cannot throw: a non-null value whose
`messaging` satisfies `messagingOk`. -/
def entryValOk : EntryVal → Prop
  | .nul => False
  | .obj m => messagingOk m

/-- Entry fields whose coerced entry array makes no property access or
iteration in the entry loop throw. -/
def entryOk : EntryField → Prop
  | .missing => False
  | .single v => entryValOk v
  | .list vs => ∀ v ∈ vs, entryValOk v

/-! ## Helper lemmas -/

theorem configVerifyToken_ne_empty (env : Option String) : configVerifyToken env ≠ "" := by
  cases env with
  | none => simp [configVerifyToken]
  | some s =>
    by_cases h : s = "" <;> simp [configVerifyToken, h]

theorem echoText_ne_attachmentReplyText (t : String) :
    echoText t ≠ attachmentReplyText := by
  intro h
  have h1 : (echoText t).data.head? = some 'আ' := by
    cases t with
    | mk d => rfl
  rw [h] at h1
  exact absurd h1 (by decide)

theorem processEvents_snd_false (evs : List EventVal)
    (h : ∀ v ∈ evs, v ≠ EventVal.nul) : (processEvents evs).2 = false := by
  induction evs with
  | nil => rfl
  | cons v rest ih =>
    cases v with
    | nul => exact absurd rfl (h _ (List.mem_cons_self _ _))
    | ev e =>
      simpa [processEvents] using ih fun w hw => h w (List.mem_cons_of_mem _ hw)

theorem processEntry_snd_false (v : EntryVal) (h : entryValOk v) :
    (processEntry v).2 = false := by
  cases v with
  | nul => exact h.elim
  | obj m =>
    cases m with
    | falsy => rfl
    | notIterable => exact h.elim
    | array evs => exact processEvents_snd_false evs h

theorem processEntries_snd_false (vs : List EntryVal)
    (h : ∀ v ∈ vs, entryValOk v) : (processEntries vs).2 = false := by
  induction vs with
  | nil => rfl
  | cons e rest ih =>
    have h2 := processEntry_snd_false e (h _ (List.mem_cons_self _ _))
    have h3 := ih fun v hv => h v (List.mem_cons_of_mem _ hv)
    simp [processEntries, h2, h3]

theorem text_ne_empty_of_keyword {t w : String} (h : lowerStr (jsTrim t) = w)
    (hw : w ≠ "") : t ≠ "" := by
  intro h0
  rw [h0] at h
  exact hw (((by decide : lowerStr (jsTrim "") = "")).symm.trans h).symm

/-! ## Claim C1 -/

/-- Claim C1 counterexample: a POST body with `object = "page"` and a
missing `entry` field is coerced to the array `[undefined]`, whose
`.messaging` access throws, so the handler answers 500, not 200, and
sends no reply. -/
theorem C1_counterexample :
    messageHandler (some ⟨some "page", EntryField.missing⟩) = (500, []) := by decide

/-- Claim C1 (amended): a POST body with `object = "page"` whose `entry`
field is tolerable — a non-array, non-null value, or an array of
non-null values, each with a falsy `messaging` or a `messaging` array
free of null elements — is processed without error and answered 200;
a missing or null entry value, a null `messaging` element, or a truthy
non-iterable `messaging` instead makes the loop throw, producing 500. -/
theorem C1_amended_entry_handling (entry : EntryField) (h : entryOk entry) :
    (messageHandler (some ⟨some "page", entry⟩)).1 = 200 := by
  have hcr : (processEntries (normalizeEntry entry)).2 = false := by
    cases entry with
    | missing => exact h.elim
    | single v =>
      apply processEntries_snd_false
      intro w hw
      simp only [normalizeEntry, List.mem_singleton] at hw
      subst hw
      exact h
    | list vs => exact processEntries_snd_false vs h
  simp [messageHandler, hcr]

/-- Witness for the amended claim C1 at the concrete malformed entry
`{}` (an object without `messaging`), answered 200. -/
theorem C1_amended_entry_handling_witness :
    entryOk (EntryField.single (EntryVal.obj MessagingField.falsy))
    ∧ (messageHandler
        (some ⟨some "page", EntryField.single (EntryVal.obj MessagingField.falsy)⟩)).1
      = 200 :=
  ⟨trivial, C1_amended_entry_handling _ trivial⟩

/-! ## Claim C2 -/

/-- Claim C2: with a send secret configured, a non-success HTTP status or
a thrown transport fault is logged and the send path resolves without
throwing to its caller (the `safeSend` wrapper catches what
`sendTextMessage` rethrows). -/
theorem C2_send_failure_absorbed (pageAccessToken : Option String)
    (htok : truthyStr pageAccessToken = true) (recipientId text : String)
    (f : FetchResult)
    (hfail : (∃ status data, f = .response false status data) ∨ ∃ err, f = .fault err) :
    (∃ d, (safeSend pageAccessToken recipientId text f).1 = .resolved d)
    ∧ (safeSend pageAccessToken recipientId text f).2 ≠ [] := by
  rcases hfail with ⟨s, d, rfl⟩ | ⟨e, rfl⟩ <;>
    simp [safeSend, sendTextMessage, htok]

/-- Witness for claim C2: a transport fault with a configured token
resolves (is not rethrown) and leaves log lines. -/
theorem C2_send_failure_absorbed_witness :
    truthyStr (some "TOKEN") = true
    ∧ ((∃ d, (safeSend (some "TOKEN") "U1" "hello" (.fault "network unreachable")).1
          = .resolved d)
      ∧ (safeSend (some "TOKEN") "U1" "hello" (.fault "network unreachable")).2 ≠ []) :=
  ⟨by decide,
    C2_send_failure_absorbed (some "TOKEN") (by decide) "U1" "hello" _ (Or.inr ⟨_, rfl⟩)⟩

/-! ## Claim C3 -/

/-- Claim C3 counterexample: for the input text `" banana "` (sender
present, not an echo, no command match) the fallback interpolates the
trimmed text, so the reply is the echo of `"banana"` and does not
contain the original, non-normalized text `" banana "`. -/
theorem C3_counterexample :
    handleEvent ⟨some "U1", some ⟨some " banana ", false, none⟩, none⟩
      = some ⟨"U1", echoText "banana"⟩
    ∧ ¬ (" banana ".data <:+: (echoText "banana").data) :=
  ⟨by decide, by decide⟩

/-- Claim C3 (amended): for a message with sender id, `is_echo` false and
non-empty text matching no command pattern, the reply is the echo of the
trimmed text, and it contains the trimmed text (hence contains the
original text exactly when the original equals its trimmed form). -/
theorem C3_echo_contains_trimmed (sid t : String) (atts : Option (List String))
    (hsid : sid ≠ "") (ht : t ≠ "") (hg : isGreeting (jsTrim t) = false)
    (hh : isHelp (jsTrim t) = false) (hs : isStatusCmd (jsTrim t) = false) :
    handleEvent ⟨some sid, some ⟨some t, false, atts⟩, none⟩
      = some ⟨sid, echoText (jsTrim t)⟩
    ∧ (jsTrim t).data <:+: (echoText (jsTrim t)).data := by
  constructor
  · simp [handleEvent, handleIncomingMessage, truthyStr, hsid, ht, hg, hh, hs]
  · exact ⟨"আপনি বললেন: \"".data, "\"".data, by cases jsTrim t with | mk d => rfl⟩

/-- Witness for the amended claim C3 at input `" banana "`. -/
theorem C3_echo_contains_trimmed_witness :
    ("U1" : String) ≠ "" ∧ (" banana " : String) ≠ ""
    ∧ isGreeting (jsTrim " banana ") = false
    ∧ isHelp (jsTrim " banana ") = false
    ∧ isStatusCmd (jsTrim " banana ") = false
    ∧ (handleEvent ⟨some "U1", some ⟨some " banana ", false, none⟩, none⟩
        = some ⟨"U1", echoText (jsTrim " banana ")⟩
      ∧ (jsTrim " banana ").data <:+: (echoText (jsTrim " banana ")).data) :=
  ⟨by decide, by decide, by decide, by decide, by decide,
    C3_echo_contains_trimmed "U1" " banana " none (by decide) (by decide) (by decide)
      (by decide) (by decide)⟩

/-! ## Claim C4 -/

/-- Claim C4: an event whose message is an echo, or which has no sender
id, produces no reply (no `safeSend` argument pair) whichever handler
it reaches. -/
theorem C4_echo_or_missing_sender_no_reply (e : Event)
    (h : e.sender = none ∨ ∃ m, e.message = some m ∧ m.is_echo = true) :
    handleEvent e = none := by
  obtain ⟨s, msg, pb⟩ := e
  rcases h with h | ⟨m, hm, he⟩
  · simp only at h
    subst h
    cases msg <;> cases pb <;> rfl
  · simp only at hm
    subst hm
    cases s with
    | none => rfl
    | some sid => simp [handleEvent, handleIncomingMessage, he]

/-- Witness for claim C4 at an echo event with a present sender id. -/
theorem C4_echo_or_missing_sender_no_reply_witness :
    ((⟨some "U1", some ⟨some "hi", true, none⟩, none⟩ : Event).sender = none
      ∨ ∃ m, (⟨some "U1", some ⟨some "hi", true, none⟩, none⟩ : Event).message = some m
          ∧ m.is_echo = true)
    ∧ handleEvent ⟨some "U1", some ⟨some "hi", true, none⟩, none⟩ = none :=
  ⟨Or.inr ⟨⟨some "hi", true, none⟩, rfl, rfl⟩,
    C4_echo_or_missing_sender_no_reply _ (Or.inr ⟨⟨some "hi", true, none⟩, rfl, rfl⟩)⟩

/-! ## Claim C5 -/

/-- Claim C5: a GET handshake with `hub.mode = "subscribe"` and
`hub.verify_token` equal to the configured verify secret (which, under
the `||`-default, is never empty and hence always truthy) is answered
with status 200 and the `hub.challenge` value as body, unchanged. -/
theorem C5_handshake_success (env challenge : Option String) :
    verifyHandler (configVerifyToken env) (some "subscribe")
      (some (configVerifyToken env)) challenge = ⟨200, challenge⟩ := by
  have h := configVerifyToken_ne_empty env
  simp [verifyHandler, truthyStr, h]

/-! ## Claim C6 -/

/-- Claim C6: a POST with an absent body, or a body whose `object` field
differs from `"page"`, is answered 400 with no reply produced. -/
theorem C6_bad_object_rejected (body : Option Body)
    (h : body = none ∨ ∃ b, body = some b ∧ b.object ≠ some "page") :
    messageHandler body = (400, []) := by
  rcases h with rfl | ⟨b, rfl, hb⟩
  · rfl
  · simp [messageHandler, hb]

/-- Witness for claim C6: a body with `object = "user"` is rejected. -/
theorem C6_bad_object_rejected_witness :
    ((some ⟨some "user", EntryField.list []⟩ : Option Body) = none
      ∨ ∃ b, (some ⟨some "user", EntryField.list []⟩ : Option Body) = some b
          ∧ b.object ≠ some "page")
    ∧ messageHandler (some ⟨some "user", EntryField.list []⟩) = (400, []) :=
  ⟨Or.inr ⟨_, rfl, by decide⟩,
    C6_bad_object_rejected _ (Or.inr ⟨_, rfl, by decide⟩)⟩

/-! ## Claim C7 -/

/-- Claim C7: when a message carries both (truthy) text and an
attachments array, the text branch runs first: the outcome is the same
as without the attachments, and the fixed attachment reply is never
produced. -/
theorem C7_text_precedence_over_attachments (sid t : String) (atts : List String)
    (pb : Option (Option String)) (hsid : sid ≠ "") (ht : t ≠ "") :
    handleEvent ⟨some sid, some ⟨some t, false, some atts⟩, pb⟩
      = handleEvent ⟨some sid, some ⟨some t, false, none⟩, pb⟩
    ∧ ∀ r, handleEvent ⟨some sid, some ⟨some t, false, some atts⟩, pb⟩ = some r →
        r.text ≠ attachmentReplyText := by
  have hev : ∀ a : Option (List String),
      handleEvent ⟨some sid, some ⟨some t, false, a⟩, pb⟩
        = (if isGreeting (jsTrim t) then some ⟨sid, greetingText⟩
           else if isHelp (jsTrim t) then some ⟨sid, helpText⟩
           else if isStatusCmd (jsTrim t) then some ⟨sid, statusText⟩
           else some ⟨sid, echoText (jsTrim t)⟩) := by
    intro a
    simp [handleEvent, handleIncomingMessage, truthyStr, hsid, ht]
  refine ⟨by rw [hev, hev], ?_⟩
  intro r hr
  rw [hev] at hr
  by_cases hg : isGreeting (jsTrim t) = true
  · rw [if_pos hg] at hr
    injection hr with h2
    rw [← h2]
    exact (by decide : greetingText ≠ attachmentReplyText)
  · rw [if_neg hg] at hr
    by_cases hh : isHelp (jsTrim t) = true
    · rw [if_pos hh] at hr
      injection hr with h2
      rw [← h2]
      exact (by decide : helpText ≠ attachmentReplyText)
    · rw [if_neg hh] at hr
      by_cases hs : isStatusCmd (jsTrim t) = true
      · rw [if_pos hs] at hr
        injection hr with h2
        rw [← h2]
        exact (by decide : statusText ≠ attachmentReplyText)
      · rw [if_neg hs] at hr
        injection hr with h2
        rw [← h2]
        exact echoText_ne_attachmentReplyText _

/-- Witness for claim C7: text `"status"` together with one attachment
yields the status reply, identical to the attachment-free event. -/
theorem C7_text_precedence_over_attachments_witness :
    ("U1" : String) ≠ "" ∧ ("status" : String) ≠ ""
    ∧ (handleEvent ⟨some "U1", some ⟨some "status", false, some ["img"]⟩, none⟩
        = handleEvent ⟨some "U1", some ⟨some "status", false, none⟩, none⟩
      ∧ ∀ r, handleEvent ⟨some "U1", some ⟨some "status", false, some ["img"]⟩, none⟩
            = some r → r.text ≠ attachmentReplyText) :=
  ⟨by decide, by decide,
    C7_text_precedence_over_attachments "U1" "status" ["img"] none (by decide) (by decide)⟩

/-! ## Claim C8 -/

/-- Claim C8: the command mapping is a case-insensitive exact match on
the trimmed text: a trimmed text lowercasing to `hi`, `hello` or `hey`
yields the greeting reply, to `help` the help reply, to `status` the
status reply (sender present, not an echo). -/
theorem C8_command_mapping (sid t : String) (atts : Option (List String))
    (pb : Option (Option String)) (hsid : sid ≠ "") :
    ((lowerStr (jsTrim t) = "hi" ∨ lowerStr (jsTrim t) = "hello"
        ∨ lowerStr (jsTrim t) = "hey") →
      handleEvent ⟨some sid, some ⟨some t, false, atts⟩, pb⟩ = some ⟨sid, greetingText⟩)
    ∧ (lowerStr (jsTrim t) = "help" →
      handleEvent ⟨some sid, some ⟨some t, false, atts⟩, pb⟩ = some ⟨sid, helpText⟩)
    ∧ (lowerStr (jsTrim t) = "status" →
      handleEvent ⟨some sid, some ⟨some t, false, atts⟩, pb⟩ = some ⟨sid, statusText⟩) := by
  refine ⟨?_, ?_, ?_⟩
  · intro hg
    have ht : t ≠ "" := by
      rcases hg with h | h | h
      · exact text_ne_empty_of_keyword h (by decide)
      · exact text_ne_empty_of_keyword h (by decide)
      · exact text_ne_empty_of_keyword h (by decide)
    have hG : isGreeting (jsTrim t) = true := by
      rcases hg with h | h | h <;> simp [isGreeting, h]
    simp [handleEvent, handleIncomingMessage, truthyStr, hsid, ht, hG]
  · intro hh
    have ht : t ≠ "" := text_ne_empty_of_keyword hh (by decide)
    have hG : isGreeting (jsTrim t) = false := by simp [isGreeting, hh]
    have hH : isHelp (jsTrim t) = true := by simp [isHelp, hh]
    simp [handleEvent, handleIncomingMessage, truthyStr, hsid, ht, hG, hH]
  · intro hs
    have ht : t ≠ "" := text_ne_empty_of_keyword hs (by decide)
    have hG : isGreeting (jsTrim t) = false := by simp [isGreeting, hs]
    have hH : isHelp (jsTrim t) = false := by simp [isHelp, hs]
    have hS : isStatusCmd (jsTrim t) = true := by simp [isStatusCmd, hs]
    simp [handleEvent, handleIncomingMessage, truthyStr, hsid, ht, hG, hH, hS]

/-- Witness for claim C8: `" HeLLo "` trims and lowercases to `hello`
and yields the greeting reply. -/
theorem C8_command_mapping_witness :
    ("U1" : String) ≠ "" ∧ lowerStr (jsTrim " HeLLo ") = "hello"
    ∧ handleEvent ⟨some "U1", some ⟨some " HeLLo ", false, none⟩, none⟩
        = some ⟨"U1", greetingText⟩ :=
  ⟨by decide, by decide,
    (C8_command_mapping "U1" " HeLLo " none none (by decide)).1
      (Or.inr (Or.inl (by decide)))⟩

/-! ## Claim C9 -/

/-- Claim C9: a handshake request in which `hub.mode` or
`hub.verify_token` is present but equal to the empty string fails the
truthiness presence test and is answered 400 (not 403), whatever the
other parameter is. -/
theorem C9_empty_mode_or_token_bad_request (verifyToken : String)
    (mode token challenge : Option String)
    (h : mode = some "" ∨ token = some "") :
    (verifyHandler verifyToken mode token challenge).status = 400 := by
  rcases h with rfl | rfl <;> simp [verifyHandler, truthyStr]

/-- Witness for claim C9: empty `hub.mode` with a token equal to the
configured secret still yields 400. -/
theorem C9_empty_mode_or_token_bad_request_witness :
    ((some "" : Option String) = some "" ∨ (some (configVerifyToken none) : Option String) = some "")
    ∧ (verifyHandler (configVerifyToken none) (some "") (some (configVerifyToken none))
        (some "ch")).status = 400 :=
  ⟨Or.inl rfl,
    C9_empty_mode_or_token_bad_request (configVerifyToken none) (some "")
      (some (configVerifyToken none)) (some "ch") (Or.inl rfl)⟩

/-! ## Claim C10 -/

/-- Claim C10: a message with sender id, `is_echo` false, no text and a
present but empty attachments array produces no reply: the length test
rejects the empty array. -/
theorem C10_empty_attachments_no_reply (sid : String) (hsid : sid ≠ "") :
    handleEvent ⟨some sid, some ⟨none, false, some []⟩, none⟩ = none := by
  simp [handleEvent, handleIncomingMessage, truthyStr, hsid]

/-- Witness for claim C10 at sender `"U1"`. -/
theorem C10_empty_attachments_no_reply_witness :
    ("U1" : String) ≠ ""
    ∧ handleEvent ⟨some "U1", some ⟨none, false, some []⟩, none⟩ = none :=
  ⟨by decide, C10_empty_attachments_no_reply "U1" (by decide)⟩

end MessengerWebhook
